import Mathlib

/-!
Verification development for the scheduling engine of the
smartport-ai-scheduler repository (src/services/aiService.ts).

The TypeScript source is shallowly embedded: JavaScript numbers are
modelled as rationals (ℚ), `HH:MM` time-of-day strings as an hour/minute
pair of integers, JS `Map`s as association lists read through their most
recent binding, and `Math.random()` outputs as an explicitly passed tape
of rationals.  JavaScript's truncating remainder (`%`), `Math.floor`,
`Math.ceil` and `Math.round` are modelled by `Int.tmod` / `Int.fdiv` /
floor / ceil / `jsRound` below.
-/

namespace SmartPort

/-- A time of day parsed from an `HH:MM` string: hour and minute
components.  The source builds output strings from possibly
un-normalised numbers, so the components are integers and may lie
outside the valid ranges. -/
structure HM where
  h : ℤ
  m : ℤ
deriving DecidableEq

/-- Minutes-of-day reading of an `HH:MM` time, as the source computes it
with `hours * 60 + minutes`. -/
def HM.toMin (t : HM) : ℤ := t.h * 60 + t.m

/-- The components describe a real time of day in `[00:00, 24:00)`. -/
def HM.valid (t : HM) : Prop := 0 ≤ t.h ∧ t.h < 24 ∧ 0 ≤ t.m ∧ t.m < 60

instance (t : HM) : Decidable t.valid := by
  unfold HM.valid
  infer_instance

/-- Truncation toward zero, as JavaScript applies when a fractional
number is fed to the integer remainder. -/
def qtrunc (x : ℚ) : ℤ := if 0 ≤ x then ⌊x⌋ else ⌈x⌉

/-- JavaScript's `%` on numbers: `a % b = a - b * trunc(a / b)`. -/
def jsRem (a b : ℚ) : ℚ := a - b * ((qtrunc (a / b) : ℤ) : ℚ)

/-- JavaScript's `Math.round`: half-way cases round toward `+∞`. -/
def jsRound (x : ℚ) : ℤ := ⌊x + (1 : ℚ) / 2⌋

/-- Ship category; the source compares against the literal strings of
the `ShipType` enum (`'集装箱船' | '散货船' | '油轮'`). -/
inductive ShipType
  | container
  | bulk
  | tanker
deriving DecidableEq

/-- Channel class of a gantt slot (`'Deep' | 'Feeder'`). -/
inductive Channel
  | Deep
  | Feeder
deriving DecidableEq

/-- Berth zone (`'A' | 'B' | 'C'`: deep / general / feeder). -/
inductive Zone
  | A
  | B
  | C
deriving DecidableEq

/-- Gantt data attached to a scheduled ship (`Ship.gantt`). -/
structure Gantt where
  startTime : ℚ
  duration : ℚ
  channelSlot : Channel
deriving DecidableEq

/-- The `Ship` record of src/types.ts, restricted to the fields the
scheduling engine reads.  Presentation-only fields (name, width, color,
status, AIS text fields, optimisation log) are omitted. -/
structure Ship where
  id : String
  type : ShipType
  length : ℚ
  draft : ℚ
  priority : ℚ
  etaOriginal : HM
  etaCorrected : Option HM
  earliestOperationTime : Option HM
  vspSavings : Option ℚ
  assignedBerthId : Option String
  gantt : Option Gantt
deriving DecidableEq

/-- The `Berth` record of src/types.ts (the presentation-only `name`
field is omitted). -/
structure Berth where
  id : String
  zone : Zone
  length : ℚ
  depth : ℚ
  isOccupied : Bool
  currentShipId : Option String
deriving DecidableEq

/-- A `TidePoint` of src/types.ts.  The source only ever parses the hour
component of the `time` string (`parseInt(tide.time.split(':')[0])`), so
the model stores that hour directly. -/
structure TidePoint where
  timeH : ℤ
  height : ℚ
deriving DecidableEq

/-- Category bias of `correctETA` (tanker 15, bulk 10, otherwise 5). -/
def typeBiasOf : ShipType → ℚ
  | .tanker => 15
  | .bulk => 10
  | .container => 5

/-- Total ETA bias of `correctETA`: category bias + length bias +
bounded random term + historical bias, in the source's order.  `rand01`
is the injected `Math.random()` output. -/
def totalBiasOf (shipType : ShipType) (shipLength historicalBias rand01 : ℚ) : ℚ :=
  typeBiasOf shipType + max 0 ((shipLength - 150) / 10) +
    (rand01 - 1 / 2) * 20 + historicalBias

/-- Result record of `correctETA`. -/
structure CorrectETAResult where
  correctedETA : HM
  bias : ℚ
  isDelayed : Bool
deriving DecidableEq

/-- `correctETA` of src/services/aiService.ts.  The single
`Math.random()` call is injected as `rand01`; the random term is
`(rand01 - 0.5) * 20`.  The corrected hour is
`Math.floor(correctedTime / 60) % 24` with the JS truncating remainder,
and the corrected minute is `Math.floor(correctedTime % 60)`. -/
def correctETA (originalETA : HM) (shipType : ShipType)
    (shipLength historicalBias rand01 : ℚ) : CorrectETAResult :=
  let originalTime : ℚ := ((originalETA.toMin : ℤ) : ℚ)
  let totalBias := totalBiasOf shipType shipLength historicalBias rand01
  let correctedTime := originalTime + totalBias
  let correctedHours := (⌊correctedTime / 60⌋).tmod 24
  let correctedMinutes := ⌊jsRem correctedTime 60⌋
  { correctedETA := ⟨correctedHours, correctedMinutes⟩,
    bias := ((jsRound (totalBias * 10) : ℤ) : ℚ) / 10,
    isDelayed := decide (totalBias > 30) }

/-- Result record of `calculateEOT`. -/
structure EOTResult where
  eot : HM
  inspectionTime : ℤ
  pilotPrepTime : ℤ
deriving DecidableEq

/-- `calculateEOT` of src/services/aiService.ts: EOT = corrected ETA +
inspection time + pilot preparation time, with the hour taken
`Math.floor(eotTime / 60) % 24` (a wrap past midnight). -/
def calculateEOT (correctedETA : HM) (shipType : ShipType) (shipLength : ℚ) :
    EOTResult :=
  let correctedTime := correctedETA.toMin
  let inspectionTime : ℤ :=
    if shipType = ShipType.tanker then 60
    else if shipLength > 300 then 45
    else if shipLength < 150 then 20
    else 30
  let pilotPrepTime : ℤ :=
    if shipLength > 300 then 25
    else if shipLength < 150 then 10
    else 15
  let eotTime := correctedTime + inspectionTime + pilotPrepTime
  { eot := ⟨(eotTime.fdiv 60).tmod 24, eotTime.tmod 60⟩,
    inspectionTime := inspectionTime,
    pilotPrepTime := pilotPrepTime }

/-- Fuel consumption curve of `calculateVSP`:
`max 0 (0.05 s² - 1.2 s + 10)` tons per hour. -/
def getFuelConsumption (speed : ℚ) : ℚ :=
  max 0 ((0.05 : ℚ) * speed * speed + (-(1.2 : ℚ)) * speed + 10)

/-- The sampled consumption curve built inside `calculateVSP`: speeds
10, 10.5, …, 18. -/
def fuelCurve : List (ℚ × ℚ) :=
  (List.range 17).map (fun i =>
    (10 + (i : ℚ) / 2, getFuelConsumption (10 + (i : ℚ) / 2)))

/-- Result record of `calculateVSP`. -/
structure VSPResult where
  vspSavings : ℚ
  recommendedSpeed : ℚ
  virtualArrivalMode : Bool
  fuelConsumptionCurve : List (ℚ × ℚ)
deriving DecidableEq

/-- `calculateVSP` of src/services/aiService.ts.  The `ship` and
`originalETA` arguments are accepted but, as in the source, never used
by the computation. -/
def calculateVSP (ship : Ship) (originalETA correctedETA berthAvailableTime : HM)
    (distanceToPort : ℚ) : VSPResult :=
  let correctedTime := correctedETA.toMin
  let berthTime := berthAvailableTime.toMin
  let timeDiff : ℚ := ((berthTime - correctedTime : ℤ) : ℚ)
  if 0 < timeDiff ∧ timeDiff ≤ 180 then
    let baseSpeed : ℚ := 14
    let optimalSpeed : ℚ := 12
    let requiredSpeed := distanceToPort * 60 / timeDiff
    if optimalSpeed ≤ requiredSpeed ∧ requiredSpeed ≤ baseSpeed then
      let originalConsumption := getFuelConsumption baseSpeed * (distanceToPort / baseSpeed)
      let vspConsumption := getFuelConsumption requiredSpeed * (distanceToPort / requiredSpeed)
      let savings := originalConsumption - vspConsumption
      { vspSavings := max 0 (((jsRound (savings * 10) : ℤ) : ℚ) / 10),
        recommendedSpeed := ((jsRound (requiredSpeed * 10) : ℤ) : ℚ) / 10,
        virtualArrivalMode := true,
        fuelConsumptionCurve := fuelCurve }
    else
      { vspSavings := 0, recommendedSpeed := 14, virtualArrivalMode := false,
        fuelConsumptionCurve := [] }
  else
    { vspSavings := 0, recommendedSpeed := 14, virtualArrivalMode := false,
      fuelConsumptionCurve := [] }

/-- Conflict kinds of the `ConflictInfo` interface. -/
inductive ConflictType
  | time_overlap
  | channel_collision
  | berth_overlap
deriving DecidableEq

/-- Conflict severities. -/
inductive Severity
  | low
  | medium
  | high
deriving DecidableEq

/-- One entry of `ConflictInfo.conflicts`. -/
structure Conflict where
  ship1 : String
  ship2 : String
  conflictType : ConflictType
  timeSlot : ℤ
  channel : Channel
  severity : Severity
deriving DecidableEq

/-- The `ConflictInfo` record returned by `detectChannelConflicts`. -/
structure ConflictInfo where
  hasConflict : Bool
  conflicts : List Conflict
  conflictMatrix : List (List ℕ)
deriving DecidableEq

/-- JavaScript truthiness of an optional string: `undefined` and the
empty string are falsy. -/
def truthyOptStr : Option String → Bool
  | none => false
  | some s => !s.isEmpty

/-- All unordered pairs of a list in the order visited by the source's
double loop (`i < j`). -/
def orderedPairs {α : Type} : List α → List (α × α)
  | [] => []
  | x :: xs => xs.map (fun y => (x, y)) ++ orderedPairs xs

/-- Read cell `(i, j)` of the conflict matrix; 0 outside the matrix. -/
def matGet (m : List (List ℕ)) (i j : ℤ) : ℕ :=
  ((m.getD i.toNat []).getD j.toNat 0)

/-- Increment cell `(i, j)` of the conflict matrix.  Where the source
would index outside the allocated `timeSlots × channels` array (and
fail), this model drops the update; every theorem below constrains the
start times so that indices stay in range. -/
def matBump (m : List (List ℕ)) (i j : ℤ) : List (List ℕ) :=
  m.set i.toNat ((m.getD i.toNat []).set j.toNat ((m.getD i.toNat []).getD j.toNat 0 + 1))

/-- Accumulator of the pair loop in `detectChannelConflicts`. -/
structure CCState where
  conflicts : List Conflict
  matrix : List (List ℕ)
deriving DecidableEq

/-- The discretized time slot used by `detectChannelConflicts`:
`Math.floor((start1 + start2) / 2 / (24 / timeSlots))`. -/
def pairTimeSlot (timeSlots : ℕ) (start1 start2 : ℚ) : ℤ :=
  ⌊(start1 + start2) / 2 / (24 / (timeSlots : ℚ))⌋

/-- The berth-overlap check of the pair loop of
`detectChannelConflicts`: same assigned berth and intersecting
intervals give a high-severity berth-overlap conflict. -/
def berthCheck (timeSlots : ℕ) (st : CCState) (pr : Ship × Ship) (g1 g2 : Gantt) :
    CCState :=
  if pr.1.assignedBerthId = pr.2.assignedBerthId then
    if ¬ (g1.startTime + g1.duration ≤ g2.startTime ∨
          g2.startTime + g2.duration ≤ g1.startTime) then
      { st with conflicts := st.conflicts ++
          [{ ship1 := pr.1.id, ship2 := pr.2.id,
             conflictType := ConflictType.berth_overlap,
             timeSlot := pairTimeSlot timeSlots g1.startTime g2.startTime,
             channel := g1.channelSlot, severity := Severity.high }] }
    else st
  else st

/-- The channel-collision check of the pair loop of
`detectChannelConflicts`: same channel class and intersecting intervals
bump the occupancy cell; a conflict is recorded only when the bumped
cell exceeds the hardcoded capacity (deep 1, feeder 2). -/
def channelCheck (timeSlots : ℕ) (st : CCState) (pr : Ship × Ship) (g1 g2 : Gantt) :
    CCState :=
  if g1.channelSlot = g2.channelSlot then
    if ¬ (g1.startTime + g1.duration ≤ g2.startTime ∨
          g2.startTime + g2.duration ≤ g1.startTime) then
      let channelIndex : ℤ := if g1.channelSlot = Channel.Deep then 0 else 1
      let timeSlot := pairTimeSlot timeSlots g1.startTime g2.startTime
      let m2 := matBump st.matrix timeSlot channelIndex
      let maxCapacity : ℕ := if g1.channelSlot = Channel.Deep then 1 else 2
      if matGet m2 timeSlot channelIndex > maxCapacity then
        { conflicts := st.conflicts ++
            [{ ship1 := pr.1.id, ship2 := pr.2.id,
               conflictType := ConflictType.channel_collision,
               timeSlot := timeSlot, channel := g1.channelSlot,
               severity := if g1.channelSlot = Channel.Deep then Severity.high
                           else Severity.medium }],
          matrix := m2 }
      else { conflicts := st.conflicts, matrix := m2 }
    else st
  else st

/-- Body of the pair loop of `detectChannelConflicts`: the berth-overlap
check followed by the channel-collision check. -/
def ccStep (timeSlots : ℕ) (st : CCState) (pr : Ship × Ship) : CCState :=
  match pr.1.gantt, pr.2.gantt with
  | some g1, some g2 => channelCheck timeSlots (berthCheck timeSlots st pr g1 g2) pr g1 g2
  | _, _ => st

/-- `detectChannelConflicts` of src/services/aiService.ts.  The
`channels` argument is split into its `deep` and `feeder` components;
they only size the matrix (capacities are hardcoded in the loop). -/
def detectChannelConflicts (ships : List Ship) (timeSlots deepChannels feederChannels : ℕ) :
    ConflictInfo :=
  let shipsWithSchedule := ships.filter
    (fun s => s.gantt.isSome && truthyOptStr s.assignedBerthId)
  let init : CCState :=
    { conflicts := [],
      matrix := List.replicate timeSlots (List.replicate (deepChannels + feederChannels) 0) }
  let fin := (orderedPairs shipsWithSchedule).foldl (ccStep timeSlots) init
  { hasConflict := !fin.conflicts.isEmpty, conflicts := fin.conflicts,
    conflictMatrix := fin.matrix }

/-- Lookup in a JS `Map` modelled as an association list whose most
recent binding comes first. -/
def mapGet {α : Type} (m : List (String × α)) (k : String) : Option α :=
  (m.find? (fun p => p.1 == k)).map (fun p => p.2)

/-- `Map.set`: bind `k` to `v`, shadowing any earlier binding. -/
def mapSet {α : Type} (m : List (String × α)) (k : String) (v : α) :
    List (String × α) :=
  (k, v) :: m.eraseP (fun p => p.1 == k)

/-- The `ScheduleSolution` record of the optimizer. -/
structure ScheduleSolution where
  assignments : List (String × String)
  startTimes : List (String × ℚ)
  objectiveValue : ℚ
  efficiency : ℚ
  cost : ℚ
deriving DecidableEq

/-- One entry of the list returned by `detectTimeConflicts`. -/
structure TimeConflict where
  ship1 : String
  ship2 : String
  berth : String
deriving DecidableEq

/-- `detectTimeConflicts` of src/services/aiService.ts: same-berth time
overlaps among the *given* ships, with a fixed duration of 4 hours.
The `berths` argument is accepted but, as in the source, unused. -/
def detectTimeConflicts (assignments : List (String × String))
    (startTimes : List (String × ℚ)) (ships : List Ship) (berths : List Berth) :
    List TimeConflict :=
  (orderedPairs ships).foldl (fun acc pr =>
    match mapGet assignments pr.1.id, mapGet assignments pr.2.id with
    | some berth1, some berth2 =>
      if !berth1.isEmpty && !berth2.isEmpty && berth1 == berth2 then
        let start1 := (mapGet startTimes pr.1.id).getD 0
        let start2 := (mapGet startTimes pr.2.id).getD 0
        let duration1 : ℚ := 4
        let duration2 : ℚ := 4
        if ¬ (start1 + duration1 ≤ start2 ∨ start2 + duration2 ≤ start1) then
          acc ++ [{ ship1 := pr.1.id, ship2 := pr.2.id, berth := berth1 }]
        else acc
      else acc
    | _, _ => acc) []

/-- `insertOperator` of src/services/aiService.ts: move one ship to a
new start time.  Note that the conflict check is invoked with the
singleton list `[ship]`, exactly as in the source. -/
def insertOperator (solution : ScheduleSolution) (ship : Ship)
    (newStartTime : ℚ) (berths : List Berth) : Option ScheduleSolution :=
  let newStartTimes := mapSet solution.startTimes ship.id newStartTime
  let conflicts := detectTimeConflicts solution.assignments newStartTimes [ship] berths
  if conflicts.length > 0 then none
  else some { assignments := solution.assignments, startTimes := newStartTimes,
              objectiveValue := 0, efficiency := 0, cost := 0 }

/-- `swapOperator` of src/services/aiService.ts: exchange the berth
assignments of two ships, subject to length and draft checks.  The JS
truthiness test `if (!berth1 || !berth2)` also rejects empty berth-id
strings. -/
def swapOperator (solution : ScheduleSolution) (ship1 ship2 : Ship)
    (berths : List Berth) : Option ScheduleSolution :=
  match mapGet solution.assignments ship1.id, mapGet solution.assignments ship2.id with
  | some berth1, some berth2 =>
    if berth1.isEmpty || berth2.isEmpty then none
    else
      match berths.find? (fun b => b.id == berth1),
            berths.find? (fun b => b.id == berth2) with
      | some berth1Obj, some berth2Obj =>
        if berth1Obj.length < ship2.length * (1.1 : ℚ) ∨
           berth2Obj.length < ship1.length * (1.1 : ℚ) then none
        else if ship1.draft > 15 ∨ ship2.draft > 15 then none
        else some
          { assignments := mapSet (mapSet solution.assignments ship1.id berth2)
              ship2.id berth1,
            startTimes := solution.startTimes,
            objectiveValue := 0, efficiency := 0, cost := 0 }
      | _, _ => none
  | _, _ => none

/-- The ships whose start time falls in the window `[startTime, endTime]`
(the source's comparison is inclusive on both ends). -/
def affectedShips (solution : ScheduleSolution) (startTime endTime : ℚ)
    (ships : List Ship) : List Ship :=
  ships.filter (fun s =>
    let st := (mapGet solution.startTimes s.id).getD 0
    decide (startTime ≤ st) && decide (st ≤ endTime))

/-- `reverseOperator` of src/services/aiService.ts: reverse the
relative start-time order of the ships in a window; requires at least
two affected ships. -/
def reverseOperator (solution : ScheduleSolution) (startTime endTime : ℚ)
    (ships : List Ship) : Option ScheduleSolution :=
  let affected := affectedShips solution startTime endTime ships
  if affected.length < 2 then none
  else
    let times := (affected.map (fun s => (mapGet solution.startTimes s.id).getD 0)).insertionSort
      (fun a b => a ≤ b)
    let reversedTimes := times.reverse
    let newStartTimes := (affected.zip reversedTimes).foldl
      (fun m pr => mapSet m pr.1.id pr.2) solution.startTimes
    some { assignments := solution.assignments, startTimes := newStartTimes,
           objectiveValue := 0, efficiency := 0, cost := 0 }

/-- `evaluateSolution` of src/services/aiService.ts, as a pure function
of the solution's start times: efficiency = Σ priority·(24 − start),
cost = Σ start, objective = efficiency − 0.1·cost.  (The source also
caches these three numbers on the record; only the returned objective
feeds any decision, so the caching is not modelled.) -/
def evaluateSolution (solution : ScheduleSolution) (ships : List Ship) : ℚ :=
  let efficiency := (ships.map (fun s =>
    s.priority * (24 - (mapGet solution.startTimes s.id).getD 0))).sum
  let cost := (ships.map (fun s => (mapGet solution.startTimes s.id).getD 0)).sum
  efficiency - cost * (0.1 : ℚ)

/-- Ghost marker for which neighborhood a VNS iteration explored. -/
inductive Neighborhood
  | swapMove
  | insertMove
  | reverseMove
deriving DecidableEq

/-- State threaded through the VNS iterations: current solution, best
solution, next index into the random tape, and the ghost exploration
trace. -/
structure VNSState where
  cur : ScheduleSolution
  best : ScheduleSolution
  k : ℕ
  trace : List Neighborhood
deriving DecidableEq

/-- One step of the swap double loop of `variableNeighborhoodSearch`:
accept the swap only on strict improvement; fold the improved current
solution into the best solution when it beats it. -/
def swapPhaseStep (ships : List Ship) (berths : List Berth)
    (st : ScheduleSolution × ScheduleSolution) (pr : Ship × Ship) :
    ScheduleSolution × ScheduleSolution :=
  match swapOperator st.1 pr.1 pr.2 berths with
  | some newSolution =>
    if evaluateSolution newSolution ships > evaluateSolution st.1 ships then
      if evaluateSolution newSolution ships > evaluateSolution st.2 ships then
        (newSolution, newSolution)
      else (newSolution, st.2)
    else st
  | none => st

/-- The insert phase of one VNS iteration (entered with probability 0.3):
pick a random ship and start time from the tape, accept only on strict
improvement.  Only the current solution can change. -/
def insertPhase (tape : ℕ → ℚ) (k : ℕ) (ships : List Ship) (berths : List Berth)
    (cur : ScheduleSolution) : ScheduleSolution :=
  match ships.get? (⌊tape (k + 1) * (ships.length : ℚ)⌋).toNat with
  | some randomShip =>
    match insertOperator cur randomShip (tape (k + 2) * 20) berths with
    | some newSolution =>
      if evaluateSolution newSolution ships > evaluateSolution cur ships then
        newSolution
      else cur
    | none => cur
  | none => cur

/-- One iteration of `variableNeighborhoodSearch`: the swap neighborhood
over all ship pairs, then (with probability 0.3 on the tape) the insert
neighborhood.  `Math.random()` calls are read off `tape` in source
order. -/
def vnsIteration (tape : ℕ → ℚ) (ships : List Ship) (berths : List Berth)
    (st : VNSState) : VNSState :=
  let afterSwap := (orderedPairs ships).foldl (swapPhaseStep ships berths)
    (st.cur, st.best)
  if tape st.k < (0.3 : ℚ) then
    { cur := insertPhase tape st.k ships berths afterSwap.1,
      best := afterSwap.2, k := st.k + 3,
      trace := st.trace ++ [Neighborhood.swapMove, Neighborhood.insertMove] }
  else
    { cur := afterSwap.1, best := afterSwap.2, k := st.k + 1,
      trace := st.trace ++ [Neighborhood.swapMove] }

/-- The VNS loop, instrumented with the ghost trace. -/
def vnsAux (tape : ℕ → ℚ) (initialSolution : ScheduleSolution) (ships : List Ship)
    (berths : List Berth) : ℕ → VNSState
  | 0 => { cur := initialSolution, best := initialSolution, k := 0, trace := [] }
  | n + 1 => vnsIteration tape ships berths (vnsAux tape initialSolution ships berths n)

/-- `variableNeighborhoodSearch` of src/services/aiService.ts: run the
iterations and return the best solution tracked. -/
def variableNeighborhoodSearch (tape : ℕ → ℚ) (initialSolution : ScheduleSolution)
    (ships : List Ship) (berths : List Berth) (maxIterations : ℕ) :
    ScheduleSolution :=
  (vnsAux tape initialSolution ships berths maxIterations).best

/-- The `ParetoSolution` record of the multi-objective evaluator. -/
structure ParetoSolution where
  solution : ScheduleSolution
  efficiency : ℚ
  cost : ℚ
  carbonEmission : ℚ
  isParetoOptimal : Bool
deriving DecidableEq

/-- `calculateCarbonEmission` of src/services/aiService.ts: 3 tons of
carbon per ton of fuel saved, summed over the ships.  The `solution`
argument is accepted but, as in the source, never read. -/
def calculateCarbonEmission (solution : ScheduleSolution) (ships : List Ship) : ℚ :=
  (ships.map (fun s => (s.vspSavings.getD 0) * 3)).sum

/-- The entry built for each candidate solution at the top of
`calculateParetoFront`. -/
def mkParetoEntry (ships : List Ship) (sol : ScheduleSolution) : ParetoSolution :=
  { solution := sol, efficiency := sol.efficiency, cost := sol.cost,
    carbonEmission := calculateCarbonEmission sol ships, isParetoOptimal := false }

/-- The source's domination test between two `ParetoSolution` entries:
at least as good on efficiency (max), cost (min) and carbon (min), and
strictly better on at least one. -/
def dominatesB (q p : ParetoSolution) : Bool :=
  decide (q.efficiency ≥ p.efficiency) && decide (q.cost ≤ p.cost) &&
  decide (q.carbonEmission ≤ p.carbonEmission) &&
  (decide (q.efficiency > p.efficiency) || decide (q.cost < p.cost) ||
   decide (q.carbonEmission < p.carbonEmission))

/-- A default entry for out-of-range index reads; the index loops below
never actually reach it. -/
def defaultPareto : ParetoSolution :=
  { solution := { assignments := [], startTimes := [], objectiveValue := 0,
                  efficiency := 0, cost := 0 },
    efficiency := 0, cost := 0, carbonEmission := 0, isParetoOptimal := false }

/-- The inner index loop of `calculateParetoFront`: is entry `i`
dominated by any entry at a different index? -/
def isDominatedAt (ps : List ParetoSolution) (i : ℕ) (p : ParetoSolution) : Bool :=
  (List.range ps.length).any (fun j => (j != i) && dominatesB (ps.getD j defaultPareto) p)

/-- `calculateParetoFront` of src/services/aiService.ts: flag each entry
as Pareto-optimal iff no other entry dominates it, then keep the
flagged entries. -/
def calculateParetoFront (solutions : List ScheduleSolution) (ships : List Ship) :
    List ParetoSolution :=
  let paretoSolutions := solutions.map (mkParetoEntry ships)
  let flagged := (List.range paretoSolutions.length).map (fun i =>
    let p := paretoSolutions.getD i defaultPareto
    { p with isParetoOptimal := !(isDominatedAt paretoSolutions i p) })
  flagged.filter (fun s => s.isParetoOptimal)

/-- Domination on efficiency and cost only — the two objectives that can
actually differ within one `calculateParetoFront` call.  Modelled from
the claim's words for comparison with the source's three-objective
test. -/
def dominates2B (q p : ParetoSolution) : Bool :=
  decide (q.efficiency ≥ p.efficiency) && decide (q.cost ≤ p.cost) &&
  (decide (q.efficiency > p.efficiency) || decide (q.cost < p.cost))

/-- The inner index loop of `paretoFrontEffCost`. -/
def isDominated2At (ps : List ParetoSolution) (i : ℕ) (p : ParetoSolution) : Bool :=
  (List.range ps.length).any (fun j => (j != i) && dominates2B (ps.getD j defaultPareto) p)

/-- The Pareto front computed from efficiency and cost alone (same
pipeline as `calculateParetoFront`, with the two-objective domination
test). -/
def paretoFrontEffCost (solutions : List ScheduleSolution) (ships : List Ship) :
    List ParetoSolution :=
  let paretoSolutions := solutions.map (mkParetoEntry ships)
  let flagged := (List.range paretoSolutions.length).map (fun i =>
    let p := paretoSolutions.getD i defaultPareto
    { p with isParetoOptimal := !(isDominated2At paretoSolutions i p) })
  flagged.filter (fun s => s.isParetoOptimal)

/-- Result record of `checkTideWindow`. -/
structure TideCheckResult where
  feasible : Bool
  tideHeight : ℚ
  requiredDepth : ℚ
  safetyMargin : ℚ
deriving DecidableEq

/-- The nearest-hour tide lookup at the top of `checkTideWindow`: scan
the whole table, keeping the first sample with the strictly smallest
absolute hour difference (the initial candidate is the head). -/
def closestTide (tideData : List TidePoint) (hours : ℤ) : Option TidePoint :=
  match tideData with
  | [] => none
  | t0 :: _ =>
    some (tideData.foldl (fun acc tide =>
      if |tide.timeH - hours| < acc.2 then (tide, |tide.timeH - hours|) else acc)
      (t0, |t0.timeH - hours|)).1

/-- `checkTideWindow` of src/services/aiService.ts.  The source parses
only the hour of the target time string, passed here as `targetHours`;
an empty tide table (on which the source would fail) yields `none`. -/
def checkTideWindow (ship : Ship) (tideData : List TidePoint) (berth : Berth)
    (targetHours : ℤ) : Option TideCheckResult :=
  match closestTide tideData targetHours with
  | none => none
  | some closest =>
    let requiredDepth := ship.draft + 1
    let availableDepth := berth.depth + closest.height
    some { feasible := decide (availableDepth ≥ requiredDepth),
           tideHeight := closest.height,
           requiredDepth := requiredDepth,
           safetyMargin := ((jsRound ((availableDepth - requiredDepth) * 10) : ℤ) : ℚ) / 10 }

/-- Tide feasibility data stored on a candidate slot. -/
structure TideWindowInfo where
  feasible : Bool
  height : ℚ
deriving DecidableEq

/-- The `CandidateBerthSlot` record. -/
structure CandidateBerthSlot where
  berthId : String
  startTime : HM
  endTime : HM
  tideWindow : TideWindowInfo
  channelSlot : Channel
deriving DecidableEq

/-- One occupancy interval of the `occupiedSlots` map, in minutes.  The
source's `end` field is named `stop` here (`end` is a Lean keyword). -/
structure OccupiedSlot where
  start : ℤ
  stop : ℤ
deriving DecidableEq

/-- The tail of each branch of `generateCandidateBerthSlots`: run the
tide check at the candidate start and append the candidate if
feasible. -/
def emitCandidate (ship : Ship) (tideData : List TidePoint) (berth : Berth)
    (candidates : List CandidateBerthSlot) (startTime endTime : HM) :
    List CandidateBerthSlot :=
  match checkTideWindow ship tideData berth startTime.h with
  | some tideCheck =>
    if tideCheck.feasible then
      candidates ++ [{ berthId := berth.id, startTime := startTime,
                       endTime := endTime,
                       tideWindow := { feasible := true, height := tideCheck.tideHeight },
                       channelSlot := if berth.zone = Zone.A then Channel.Deep
                                      else Channel.Feeder }]
    else candidates
  | none => candidates

/-- The loop body of `generateCandidateBerthSlots`: the three
eligibility filters followed by the occupied/free branch with its tide
check.  The EOT is the first defined of `earliestOperationTime`,
`etaCorrected`, `etaOriginal`; estimated service duration is
`max(4, ceil(length / 50))` hours. -/
def slotStep (ship : Ship) (tideData : List TidePoint)
    (occupiedSlots : List (String × OccupiedSlot))
    (candidates : List CandidateBerthSlot) (berth : Berth) :
    List CandidateBerthSlot :=
  let eotTime := ship.earliestOperationTime.getD (ship.etaCorrected.getD ship.etaOriginal)
  let estimatedDuration : ℤ := max 4 ⌈ship.length / 50⌉
  if berth.length < ship.length * (1.1 : ℚ) then candidates
  else if ship.draft > 15 then candidates
  else if ship.type = ShipType.tanker ∧ berth.zone ≠ Zone.A then candidates
  else
    match ((occupiedSlots.find? (fun p => p.1 == berth.id)).map (fun p => p.2)),
          berth.isOccupied with
    | some occupied, true =>
      let availableStart := occupied.stop
      let availableStartHours := availableStart.fdiv 60
      let startTime : HM := ⟨availableStartHours, availableStart.tmod 60⟩
      let endTime : HM := ⟨(availableStartHours + estimatedDuration).tmod 24, 0⟩
      emitCandidate ship tideData berth candidates startTime endTime
    | _, _ =>
      let startTime := eotTime
      let endTime : HM := ⟨(eotTime.h + estimatedDuration).tmod 24, 0⟩
      emitCandidate ship tideData berth candidates startTime endTime

/-- `generateCandidateBerthSlots` of src/services/aiService.ts: fold
`slotStep` over the berth list. -/
def generateCandidateBerthSlots (ship : Ship) (berths : List Berth)
    (tideData : List TidePoint) (occupiedSlots : List (String × OccupiedSlot)) :
    List CandidateBerthSlot :=
  berths.foldl (slotStep ship tideData occupiedSlots) []

/-- A container ship with no schedule data, used by the concrete
instances below. -/
def plainShip : Ship :=
  { id := "W1", type := ShipType.container, length := 100, draft := 8,
    priority := 5, etaOriginal := ⟨8, 0⟩, etaCorrected := none,
    earliestOperationTime := none, vspSavings := none,
    assignedBerthId := none, gantt := none }

/-- Two deep-channel ships with overlapping gantt intervals `[0,4)` and
`[2,6)` on distinct berths. -/
def shipDeepA : Ship :=
  { plainShip with
    id := "S1"
    assignedBerthId := some "A01"
    gantt := some ⟨0, 4, Channel.Deep⟩ }

/-- Second ship of the overlapping deep-channel pair. -/
def shipDeepB : Ship :=
  { plainShip with
    id := "S2"
    assignedBerthId := some "A02"
    gantt := some ⟨2, 4, Channel.Deep⟩ }

/-- A third deep-channel ship overlapping both of the pair above. -/
def shipDeepC : Ship :=
  { plainShip with
    id := "S3"
    assignedBerthId := some "B01"
    gantt := some ⟨1, 4, Channel.Deep⟩ }

/-- Deep-channel ships with overlapping intervals `[5,9)` and `[6,10)`,
used by the witness instance. -/
def shipDeepD : Ship :=
  { plainShip with
    id := "S4"
    assignedBerthId := some "A01"
    gantt := some ⟨5, 4, Channel.Deep⟩ }

/-- Second ship of the witness pair. -/
def shipDeepE : Ship :=
  { plainShip with
    id := "S5"
    assignedBerthId := some "A02"
    gantt := some ⟨6, 4, Channel.Deep⟩ }

/-- Ships sharing berth B01 in the insert-operator scenario. -/
def shipT1 : Ship := { plainShip with id := "T1" }

/-- Second ship of the insert-operator scenario. -/
def shipT2 : Ship := { plainShip with id := "T2" }

/-- A schedule with both ships on berth B01, at start times 0 and 10. -/
def demoSolution : ScheduleSolution :=
  { assignments := [("T1", "B01"), ("T2", "B01")],
    startTimes := [("T1", 0), ("T2", 10)],
    objectiveValue := 0, efficiency := 0, cost := 0 }

/-- The solution `insertOperator` produces when ship T2 is moved to
start time 1 — on top of ship T1's interval `[0,4)`. -/
def demoInserted : ScheduleSolution :=
  { assignments := [("T1", "B01"), ("T2", "B01")],
    startTimes := [("T2", 1), ("T1", 0)],
    objectiveValue := 0, efficiency := 0, cost := 0 }

/-- A random tape on which the 0.3-probability insert branch never
fires. -/
def tapeHalf : ℕ → ℚ := fun _ => 1 / 2

/-- Ships for the VNS runs. -/
def vnsShipA : Ship := { plainShip with id := "V1" }

/-- Second VNS ship. -/
def vnsShipB : Ship := { plainShip with id := "V2", priority := 3 }

/-- Berths for the VNS runs. -/
def vnsBerths : List Berth :=
  [{ id := "B01", zone := Zone.B, length := 200, depth := 12,
     isOccupied := false, currentShipId := none },
   { id := "B02", zone := Zone.B, length := 180, depth := 11,
     isOccupied := false, currentShipId := none }]

/-- Initial solution for the VNS runs. -/
def vnsSolution : ScheduleSolution :=
  { assignments := [("V1", "B01"), ("V2", "B02")],
    startTimes := [("V1", 2), ("V2", 3)],
    objectiveValue := 0, efficiency := 0, cost := 0 }

/-- Berth comfortably long and deep enough for `plainShip`. -/
def tideBerth : Berth :=
  { id := "B01", zone := Zone.B, length := 200, depth := 10,
    isOccupied := false, currentShipId := none }

/-- A small tide table. -/
def demoTide : List TidePoint := [⟨0, 2⟩, ⟨6, 3⟩]

/-- The candidate slot generated for `plainShip` at `tideBerth`. -/
def demoCandidate : CandidateBerthSlot :=
  { berthId := "B01", startTime := ⟨8, 0⟩, endTime := ⟨12, 0⟩,
    tideWindow := { feasible := true, height := 3 },
    channelSlot := Channel.Feeder }

/-- Two solutions separated on efficiency and cost. -/
def solHi : ScheduleSolution :=
  { assignments := [], startTimes := [], objectiveValue := 0,
    efficiency := 10, cost := 5 }

/-- The dominated solution of the pair. -/
def solLo : ScheduleSolution :=
  { assignments := [], startTimes := [], objectiveValue := 0,
    efficiency := 5, cost := 7 }

/-- The source's domination relation between two Pareto entries, stated
propositionally from the claim's words: at least as good on all three
objectives and strictly better on at least one. -/
def dominatesProp (q p : ParetoSolution) : Prop :=
  q.efficiency ≥ p.efficiency ∧ q.cost ≤ p.cost ∧
  q.carbonEmission ≤ p.carbonEmission ∧
  (q.efficiency > p.efficiency ∨ q.cost < p.cost ∨
   q.carbonEmission < p.carbonEmission)

instance (q p : ParetoSolution) : Decidable (dominatesProp q p) := by
  unfold dominatesProp
  infer_instance

/-- The guarantees claim C8 states for a candidate emitted for `ship`
at berth `b`: length margin, draft cap, tanker zoning, and tide
feasibility at the candidate's start hour. -/
def candidateOK (ship : Ship) (tideData : List TidePoint) (b : Berth)
    (c : CandidateBerthSlot) : Prop :=
  c.berthId = b.id ∧
  ship.length * (1.1 : ℚ) ≤ b.length ∧
  ship.draft ≤ 15 ∧
  (ship.type = ShipType.tanker → b.zone = Zone.A) ∧
  ∃ r, checkTideWindow ship tideData b c.startTime.h = some r ∧ r.feasible = true

end SmartPort

namespace SmartPort

theorem dominatesB_iff (q p : ParetoSolution) :
    dominatesB q p = true ↔ dominatesProp q p := by
  unfold dominatesB dominatesProp
  simp [and_assoc, or_assoc]

theorem dominatesB_irrefl (p : ParetoSolution) : dominatesB p p = false := by
  unfold dominatesB
  simp

theorem floor_div_sixty (q : ℚ) : ⌊q / 60⌋ = ⌊q⌋ / 60 := by
  refine eq_of_forall_le_iff (fun z => ?_)
  rw [Int.le_floor, Int.le_ediv_iff_mul_le (by norm_num : (0 : ℤ) < 60),
    Int.le_floor, le_div_iff (by norm_num : (0 : ℚ) < 60)]
  push_cast
  rfl

theorem hm_wrap_eq (e : ℤ) (h0 : 0 ≤ e) (h1 : e < 1440) :
    (HM.mk ((e.fdiv 60).tmod 24) (e.tmod 60)).toMin = e := by
  unfold HM.toMin
  dsimp only
  rw [Int.fdiv_eq_ediv _ (by norm_num), Int.tmod_eq_emod (Int.ediv_nonneg h0 (by norm_num))
    (by norm_num), Int.tmod_eq_emod h0 (by norm_num)]
  omega

theorem hm_wrapq (q : ℚ) (h0 : 0 ≤ q) :
    (HM.mk ((⌊q / 60⌋).tmod 24) ⌊jsRem q 60⌋).valid ∧
      (HM.mk ((⌊q / 60⌋).tmod 24) ⌊jsRem q 60⌋).toMin = ⌊q⌋ % 1440 := by
  have hn : 0 ≤ ⌊q⌋ := Int.floor_nonneg.2 h0
  have hdiv : (0 : ℚ) ≤ q / 60 := by positivity
  have hq : qtrunc (q / 60) = ⌊q / 60⌋ := by
    unfold qtrunc
    rw [if_pos hdiv]
  have hrem : ⌊jsRem q 60⌋ = ⌊q⌋ - 60 * (⌊q⌋ / 60) := by
    unfold jsRem
    rw [hq, floor_div_sixty]
    have : q - 60 * ((((⌊q⌋ : ℤ) / 60 : ℤ) : ℤ) : ℚ) = q - (((60 * (⌊q⌋ / 60) : ℤ)) : ℚ) := by
      push_cast
      ring
    rw [this, Int.floor_sub_int]
  have hfl : (⌊q / 60⌋).tmod 24 = (⌊q⌋ / 60) % 24 := by
    rw [floor_div_sixty]
    exact Int.tmod_eq_emod (Int.ediv_nonneg hn (by norm_num)) (by norm_num)
  constructor
  · refine ⟨?_, ?_, ?_, ?_⟩ <;> simp only [hfl, hrem] <;> omega
  · simp only [HM.toMin, hfl, hrem]
    omega

/-- C3 counterexample: for corrected ETA 23:30 and a tanker, the EOT
wraps past midnight to 00:55, which as a time of day is smaller than
the corrected ETA — the claim `correctedETA ≤ EOT` fails. -/
theorem claim3_counterexample :
    (calculateEOT ⟨23, 30⟩ ShipType.tanker 300).eot.toMin
      < (HM.mk 23 30).toMin := by
  with_unfolding_all decide

/-- C3 (amended): for every valid corrected ETA whose sum with the
(positive) inspection and pilotage durations stays below 24:00, the EOT
equals corrected ETA + durations and, as a time of day, is at least the
corrected ETA.  (When the sum crosses midnight the source wraps the EOT
modulo 24 h, and the inequality fails — see the counterexample.) -/
theorem claim3_amended_thm (c : HM) (ty : ShipType) (len : ℚ)
    (hv : c.valid)
    (h : c.toMin + (calculateEOT c ty len).inspectionTime
          + (calculateEOT c ty len).pilotPrepTime < 1440) :
    (calculateEOT c ty len).eot.toMin
        = c.toMin + (calculateEOT c ty len).inspectionTime
          + (calculateEOT c ty len).pilotPrepTime ∧
      c.toMin ≤ (calculateEOT c ty len).eot.toMin := by
  have hI : 0 < (calculateEOT c ty len).inspectionTime := by
    show 0 < (if ty = ShipType.tanker then (60 : ℤ)
      else if len > 300 then 45 else if len < 150 then 20 else 30)
    split_ifs <;> norm_num
  have hP : 0 < (calculateEOT c ty len).pilotPrepTime := by
    show 0 < (if len > 300 then (25 : ℤ) else if len < 150 then 10 else 15)
    split_ifs <;> norm_num
  obtain ⟨hh0, hh1, hm0, hm1⟩ := hv
  have h0 : 0 ≤ c.toMin := by
    unfold HM.toMin
    omega
  have key := hm_wrap_eq (c.toMin + (calculateEOT c ty len).inspectionTime
    + (calculateEOT c ty len).pilotPrepTime) (by omega) h
  have key2 : (calculateEOT c ty len).eot.toMin
      = c.toMin + (calculateEOT c ty len).inspectionTime
        + (calculateEOT c ty len).pilotPrepTime := key
  refine ⟨key2, ?_⟩
  rw [key2]
  omega

/-- C3 witness: corrected ETA 10:00 on a container ship of length 100
gives EOT 10:30 = 10:00 + 20 + 10 ≥ 10:00. -/
theorem claim3_witness :
    (calculateEOT ⟨10, 0⟩ ShipType.container 100).eot.toMin
        = (HM.mk 10 0).toMin
          + (calculateEOT ⟨10, 0⟩ ShipType.container 100).inspectionTime
          + (calculateEOT ⟨10, 0⟩ ShipType.container 100).pilotPrepTime ∧
      (HM.mk 10 0).toMin ≤ (calculateEOT ⟨10, 0⟩ ShipType.container 100).eot.toMin :=
  claim3_amended_thm ⟨10, 0⟩ ShipType.container 100
    (by with_unfolding_all decide) (by with_unfolding_all decide)

/-- C6 counterexample: with declared ETA 00:00, a container ship of
length 100, historical bias −1000 and random draw 0.5, the corrected
time is −995 minutes and the JS remainder produces the components
(−17, −35) — not a valid time of day, refuting the claim that the
result is always a valid time in `[00:00, 24:00)`. -/
theorem claim6_counterexample :
    ¬ (correctETA ⟨0, 0⟩ ShipType.container 100 (-1000) (1 / 2)).correctedETA.valid := by
  with_unfolding_all decide

/-- C6 (amended): whenever the declared time plus the total bias
(category + length + random + historical) is non-negative, the
corrected ETA is a valid time of day and equals the biased time,
floored to whole minutes, modulo 24 h.  For sufficiently negative total
bias the truncating JS remainder instead produces negative components
and an invalid time — see the counterexample. -/
theorem claim6_amended_thm (originalETA : HM) (ty : ShipType) (len hb r : ℚ)
    (h0 : 0 ≤ ((originalETA.toMin : ℤ) : ℚ) + totalBiasOf ty len hb r) :
    (correctETA originalETA ty len hb r).correctedETA.valid ∧
      (correctETA originalETA ty len hb r).correctedETA.toMin
        = ⌊((originalETA.toMin : ℤ) : ℚ) + totalBiasOf ty len hb r⌋ % 1440 :=
  hm_wrapq (((originalETA.toMin : ℤ) : ℚ) + totalBiasOf ty len hb r) h0

/-- C6 witness: declared 12:00, container of length 100, historical
bias 0, random draw 0.5 give total bias 5 and corrected ETA 12:05, a
valid time equal to 725 mod 1440. -/
theorem claim6_witness :
    (correctETA ⟨12, 0⟩ ShipType.container 100 0 (1 / 2)).correctedETA.valid ∧
      (correctETA ⟨12, 0⟩ ShipType.container 100 0 (1 / 2)).correctedETA.toMin
        = ⌊((HM.toMin ⟨12, 0⟩ : ℤ) : ℚ) + totalBiasOf ShipType.container 100 0 (1 / 2)⌋ % 1440 :=
  claim6_amended_thm ⟨12, 0⟩ ShipType.container 100 0 (1 / 2)
    (by norm_num [HM.toMin, totalBiasOf, typeBiasOf])

/-- C7: whenever the berth slack `berthAvailable − correctedETA` lies
outside `(0, 180]` minutes or the required speed `distance·60/slack`
lies outside `[12, 14]` knots, `calculateVSP` returns virtual-arrival
mode off, zero savings and the base speed 14; and in all cases the
returned savings are non-negative. -/
theorem claim7_thm (ship : Ship) (oe ce bt : HM) (d : ℚ) :
    ((¬ (0 < ((bt.toMin - ce.toMin : ℤ) : ℚ) ∧ ((bt.toMin - ce.toMin : ℤ) : ℚ) ≤ 180) ∨
      ¬ (12 ≤ d * 60 / ((bt.toMin - ce.toMin : ℤ) : ℚ) ∧
         d * 60 / ((bt.toMin - ce.toMin : ℤ) : ℚ) ≤ 14)) →
      (calculateVSP ship oe ce bt d).virtualArrivalMode = false ∧
      (calculateVSP ship oe ce bt d).vspSavings = 0 ∧
      (calculateVSP ship oe ce bt d).recommendedSpeed = 14) ∧
    0 ≤ (calculateVSP ship oe ce bt d).vspSavings := by
  unfold calculateVSP
  dsimp only
  constructor
  · intro hout
    split_ifs with h1 h2
    · rcases hout with h | h
      · exact absurd h1 h
      · exact absurd h2 h
    · exact ⟨rfl, rfl, rfl⟩
    · exact ⟨rfl, rfl, rfl⟩
  · split_ifs with h1 h2
    · exact le_max_left 0 _
    · exact le_refl 0
    · exact le_refl 0

/-- C7 witness: corrected ETA 08:00, berth available 10:30 (slack 150
minutes in range) but distance 50 nm requires 20 knots, outside
`[12, 14]` — mode off, zero savings, speed 14, savings non-negative. -/
theorem claim7_witness :
    ((calculateVSP plainShip ⟨8, 0⟩ ⟨8, 0⟩ ⟨10, 30⟩ 50).virtualArrivalMode = false ∧
     (calculateVSP plainShip ⟨8, 0⟩ ⟨8, 0⟩ ⟨10, 30⟩ 50).vspSavings = 0 ∧
     (calculateVSP plainShip ⟨8, 0⟩ ⟨8, 0⟩ ⟨10, 30⟩ 50).recommendedSpeed = 14) ∧
    0 ≤ (calculateVSP plainShip ⟨8, 0⟩ ⟨8, 0⟩ ⟨10, 30⟩ 50).vspSavings :=
  ⟨(claim7_thm plainShip ⟨8, 0⟩ ⟨8, 0⟩ ⟨10, 30⟩ 50).1
      (Or.inr (by norm_num [HM.toMin])),
   (claim7_thm plainShip ⟨8, 0⟩ ⟨8, 0⟩ ⟨10, 30⟩ 50).2⟩

theorem getD_replicate {α : Type} (n : ℕ) (a d : α) (i : ℕ) :
    (List.replicate n a).getD i d = if i < n then a else d := by
  induction n generalizing i with
  | zero => simp
  | succ k ih =>
    cases i with
    | zero => simp
    | succ j =>
      rw [List.replicate_succ, List.getD_cons_succ, ih]
      simp [Nat.succ_lt_succ_iff]

theorem matGet_replicate_zero (a b : ℕ) (i j : ℤ) :
    matGet (List.replicate a (List.replicate b 0)) i j = 0 := by
  unfold matGet
  rw [getD_replicate]
  split_ifs
  · rw [getD_replicate]
    split_ifs <;> rfl
  · simp

theorem getD_set_self {α : Type} (l : List α) (n : ℕ) (a d : α) :
    (l.set n a).getD n d = if n < l.length then a else l.getD n d := by
  split_ifs with h
  · rw [List.getD_eq_getElem?_getD, List.getElem?_set_self (by simpa using h)]
    rfl
  · rw [List.set_eq_of_length_le (le_of_not_lt h)]

theorem matGet_matBump_le (m : List (List ℕ)) (i j : ℤ) :
    matGet (matBump m i j) i j ≤ matGet m i j + 1 := by
  unfold matGet matBump
  rw [getD_set_self]
  split_ifs with h
  · rw [getD_set_self]
    split_ifs with h2
    · exact le_refl _
    · omega
  · omega

theorem berthCheck_matrix (timeSlots : ℕ) (st : CCState) (pr : Ship × Ship)
    (g1 g2 : Gantt) : (berthCheck timeSlots st pr g1 g2).matrix = st.matrix := by
  unfold berthCheck
  split_ifs <;> rfl

theorem berthCheck_filter (timeSlots : ℕ) (st : CCState) (pr : Ship × Ship)
    (g1 g2 : Gantt) :
    ((berthCheck timeSlots st pr g1 g2).conflicts.filter
        (fun c => c.conflictType == ConflictType.channel_collision))
      = st.conflicts.filter
        (fun c => c.conflictType == ConflictType.channel_collision) := by
  unfold berthCheck
  split_ifs <;> simp [List.filter_append]

theorem channelCheck_filter (timeSlots : ℕ) (st : CCState) (pr : Ship × Ship)
    (g1 g2 : Gantt) (hm0 : ∀ t ci, matGet st.matrix t ci = 0) :
    ((channelCheck timeSlots st pr g1 g2).conflicts.filter
        (fun c => c.conflictType == ConflictType.channel_collision))
      = st.conflicts.filter
        (fun c => c.conflictType == ConflictType.channel_collision) := by
  have hgen : ∀ (ts ci : ℤ) (cap : ℕ), 1 ≤ cap →
      ¬ (matGet (matBump st.matrix ts ci) ts ci > cap) := by
    intro ts ci cap hcap
    have h1 := matGet_matBump_le st.matrix ts ci
    have h2 := hm0 ts ci
    omega
  unfold channelCheck
  dsimp only
  split_ifs with h1 h2 h3 h4 h5 h6 h7 <;>
    first
      | rfl
      | (exact absurd (by assumption) (hgen _ _ _ (by norm_num)))

/-- C1 counterexample: two vessels on the deep channel with overlapping
gantt intervals `[0,4)` and `[2,6)` and deep capacity 1 — the single
pair's post-increment count is 1, which does not exceed the capacity,
so `detectChannelConflicts` reports no channel-collision conflict at
all, contradicting the claim. -/
theorem claim1_counterexample :
    ¬ ∃ c ∈ (detectChannelConflicts [shipDeepA, shipDeepB] 10 1 2).conflicts,
      c.conflictType = ConflictType.channel_collision := by
  with_unfolding_all decide

/-- C1 (amended): a channel-collision conflict is recorded only when
the post-increment pair count in the slot exceeds the channel capacity.
Hence a schedule of exactly two deep-channel vessels with overlapping
intervals yields no channel-collision conflict (the count reaches only
1 = deep capacity), while a third pairwise-overlapping deep-channel
vessel does produce channel-collision conflicts. -/
theorem claim1_amended_thm :
    (∀ (s1 s2 : Ship) (g1 g2 : Gantt),
        s1.gantt = some g1 → s2.gantt = some g2 →
        truthyOptStr s1.assignedBerthId = true →
        truthyOptStr s2.assignedBerthId = true →
        g1.channelSlot = Channel.Deep → g2.channelSlot = Channel.Deep →
        0 ≤ g1.startTime → g1.startTime < 24 →
        0 ≤ g2.startTime → g2.startTime < 24 →
        ¬ (g1.startTime + g1.duration ≤ g2.startTime ∨
           g2.startTime + g2.duration ≤ g1.startTime) →
        ((detectChannelConflicts [s1, s2] 10 1 2).conflicts.filter
          (fun c => c.conflictType == ConflictType.channel_collision)) = []) ∧
    (detectChannelConflicts [shipDeepA, shipDeepC, shipDeepB] 10 1 2).conflicts.any
        (fun c => c.conflictType == ConflictType.channel_collision) = true := by
  constructor
  · intro s1 s2 g1 g2 hg1 hg2 hb1 hb2 _ _ _ _ _ _ _
    unfold detectChannelConflicts
    have hfilter : ([s1, s2].filter
        (fun s => s.gantt.isSome && truthyOptStr s.assignedBerthId)) = [s1, s2] := by
      simp [List.filter, hg1, hg2, hb1, hb2]
    dsimp only
    rw [hfilter]
    show ((ccStep 10 _ (s1, s2)).conflicts.filter
      (fun c => c.conflictType == ConflictType.channel_collision)) = []
    unfold ccStep
    dsimp only
    rw [hg1, hg2]
    dsimp only
    rw [channelCheck_filter _ _ _ _ _ (by
      rw [berthCheck_matrix]
      intro t ci
      exact matGet_replicate_zero 10 3 t ci)]
    rw [berthCheck_filter]
    rfl
  · with_unfolding_all decide

/-- C1 witness: the two-vessel part of the amended theorem applied to
the overlapping deep-channel pair starting at 05:00 and 06:00. -/
theorem claim1_witness :
    ((detectChannelConflicts [shipDeepD, shipDeepE] 10 1 2).conflicts.filter
      (fun c => c.conflictType == ConflictType.channel_collision)) = [] :=
  claim1_amended_thm.1 shipDeepD shipDeepE ⟨5, 4, Channel.Deep⟩ ⟨6, 4, Channel.Deep⟩
    rfl rfl rfl rfl rfl rfl (by norm_num) (by norm_num) (by norm_num) (by norm_num)
    (by norm_num)

/-- C4 (code bug): `insertOperator` passes only the moved ship to the
pairwise conflict scan `detectTimeConflicts`, so the scan never finds a
pair and the operator accepts every move — including moving T2 to start
1 on top of T1's interval `[0,4)` on the same berth, a same-berth
overlap that the very same detector reports when given both ships. -/
theorem claim4_code_bug_thm :
    (∀ (solution : ScheduleSolution) (ship : Ship) (t : ℚ) (berths : List Berth),
        (insertOperator solution ship t berths).isSome = true) ∧
    insertOperator demoSolution shipT2 1 [] = some demoInserted ∧
    detectTimeConflicts demoInserted.assignments demoInserted.startTimes
      [shipT1, shipT2] [] ≠ [] := by
  refine ⟨?_, ?_, ?_⟩
  · intro solution ship t berths
    rfl
  · with_unfolding_all decide
  · with_unfolding_all decide

/-- C4 witness: the never-rejecting part of the theorem at a concrete
move. -/
theorem claim4_witness :
    (insertOperator demoSolution shipT1 0 []).isSome = true :=
  claim4_code_bug_thm.1 demoSolution shipT1 0 []

theorem swapPhaseStep_best_le (ships : List Ship) (berths : List Berth)
    (st : ScheduleSolution × ScheduleSolution) (pr : Ship × Ship) :
    evaluateSolution st.2 ships ≤
      evaluateSolution (swapPhaseStep ships berths st pr).2 ships := by
  unfold swapPhaseStep
  cases h : swapOperator st.1 pr.1 pr.2 berths with
  | none => exact le_refl _
  | some ns =>
    dsimp only
    split_ifs with h1 h2
    · exact le_of_lt h2
    · exact le_refl _
    · exact le_refl _

theorem foldl_swap_best_le (ships : List Ship) (berths : List Berth) :
    ∀ (l : List (Ship × Ship)) (st : ScheduleSolution × ScheduleSolution),
      evaluateSolution st.2 ships ≤
        evaluateSolution ((l.foldl (swapPhaseStep ships berths) st)).2 ships := by
  intro l
  induction l with
  | nil =>
    intro st
    exact le_refl _
  | cons p rest ih =>
    intro st
    rw [List.foldl_cons]
    exact le_trans (swapPhaseStep_best_le ships berths st p) (ih _)

theorem vnsIteration_best_le (tape : ℕ → ℚ) (ships : List Ship) (berths : List Berth)
    (st : VNSState) :
    evaluateSolution st.best ships ≤
      evaluateSolution (vnsIteration tape ships berths st).best ships := by
  unfold vnsIteration
  dsimp only
  split_ifs with h
  · exact foldl_swap_best_le ships berths _ (st.cur, st.best)
  · exact foldl_swap_best_le ships berths _ (st.cur, st.best)

/-- C2: the solution `variableNeighborhoodSearch` returns evaluates to
an objective at least the initial solution's — moves are accepted only
on strict improvement and the best solution is tracked monotonically
and returned. -/
theorem claim2_thm (tape : ℕ → ℚ) (initialSolution : ScheduleSolution)
    (ships : List Ship) (berths : List Berth) (maxIterations : ℕ) :
    evaluateSolution initialSolution ships ≤
      evaluateSolution
        (variableNeighborhoodSearch tape initialSolution ships berths maxIterations)
        ships := by
  induction maxIterations with
  | zero => exact le_refl _
  | succ n ih => exact le_trans ih (vnsIteration_best_le tape ships berths _)

/-- C2 witness: a concrete two-ship, two-berth run over two
iterations. -/
theorem claim2_witness :
    evaluateSolution vnsSolution [vnsShipA, vnsShipB] ≤
      evaluateSolution
        (variableNeighborhoodSearch tapeHalf vnsSolution [vnsShipA, vnsShipB] vnsBerths 2)
        [vnsShipA, vnsShipB] :=
  claim2_thm tapeHalf vnsSolution [vnsShipA, vnsShipB] vnsBerths 2

theorem vnsAux_no_reverse (tape : ℕ → ℚ) (initialSolution : ScheduleSolution)
    (ships : List Ship) (berths : List Berth) (n : ℕ) :
    Neighborhood.reverseMove ∉ (vnsAux tape initialSolution ships berths n).trace := by
  induction n with
  | zero => simp [vnsAux]
  | succ k ih =>
    show Neighborhood.reverseMove ∉
      (vnsIteration tape ships berths (vnsAux tape initialSolution ships berths k)).trace
    unfold vnsIteration
    dsimp only
    split_ifs with h
    · simp [List.mem_append, ih]
    · simp [List.mem_append, ih]

/-- C5 counterexample: a full iteration of the search on a concrete
two-ship instance explores only the swap neighborhood (the 0.3-random
insert branch does not fire on this tape, and no reverse exploration
ever appears): the trace of iteration 1 is exactly `[swapMove]`,
refuting the claim that every iteration explores swap, insert and
reverse. -/
theorem claim5_counterexample :
    (vnsAux tapeHalf vnsSolution [vnsShipA, vnsShipB] vnsBerths 1).trace
      = [Neighborhood.swapMove] := by
  with_unfolding_all decide

/-- C5 (amended): each iteration of `variableNeighborhoodSearch`
explores the swap neighborhood and, with probability 0.3, the insert
neighborhood; the reverse neighborhood is implemented by
`reverseOperator` — which returns a move exactly when at least two
vessels have start times in the closed window — but is never invoked by
the search. -/
theorem claim5_amended_thm :
    (∀ (tape : ℕ → ℚ) (initialSolution : ScheduleSolution) (ships : List Ship)
        (berths : List Berth) (n : ℕ),
        Neighborhood.reverseMove ∉ (vnsAux tape initialSolution ships berths n).trace) ∧
    (∀ (solution : ScheduleSolution) (startTime endTime : ℚ) (ships : List Ship),
        reverseOperator solution startTime endTime ships = none ↔
          (affectedShips solution startTime endTime ships).length < 2) := by
  constructor
  · exact vnsAux_no_reverse
  · intro solution s e ships
    unfold reverseOperator
    dsimp only
    split_ifs with h
    · simp [h]
    · simp [h]

/-- C5 witness: no reverse exploration in a concrete two-iteration
run. -/
theorem claim5_witness :
    Neighborhood.reverseMove ∉
      (vnsAux tapeHalf vnsSolution [vnsShipA, vnsShipB] vnsBerths 2).trace :=
  claim5_amended_thm.1 tapeHalf vnsSolution [vnsShipA, vnsShipB] vnsBerths 2

theorem mem_emitCandidate (ship : Ship) (tideData : List TidePoint) (berth : Berth)
    (candidates : List CandidateBerthSlot) (startTime endTime : HM)
    (c : CandidateBerthSlot)
    (hc : c ∈ emitCandidate ship tideData berth candidates startTime endTime) :
    c ∈ candidates ∨
      (c.berthId = berth.id ∧ c.startTime = startTime ∧
        ∃ r, checkTideWindow ship tideData berth startTime.h = some r ∧
          r.feasible = true) := by
  unfold emitCandidate at hc
  cases h : checkTideWindow ship tideData berth startTime.h with
  | none =>
    rw [h] at hc
    exact Or.inl hc
  | some tc =>
    rw [h] at hc
    dsimp only at hc
    by_cases hf : tc.feasible = true
    · rw [if_pos hf] at hc
      rcases List.mem_append.1 hc with h1 | h1
      · exact Or.inl h1
      · rcases List.mem_singleton.1 h1 with rfl
        exact Or.inr ⟨rfl, rfl, tc, rfl, hf⟩
    · rw [if_neg hf] at hc
      exact Or.inl hc

theorem slotStep_sound (ship : Ship) (tideData : List TidePoint)
    (occupiedSlots : List (String × OccupiedSlot))
    (candidates : List CandidateBerthSlot) (berth : Berth)
    (c : CandidateBerthSlot)
    (hc : c ∈ slotStep ship tideData occupiedSlots candidates berth) :
    c ∈ candidates ∨ candidateOK ship tideData berth c := by
  unfold slotStep at hc
  dsimp only at hc
  split_ifs at hc with h1 h2 h3
  · exact Or.inl hc
  · exact Or.inl hc
  · exact Or.inl hc
  · have hlen : ship.length * (1.1 : ℚ) ≤ berth.length := le_of_not_lt h1
    have hdraft : ship.draft ≤ 15 := le_of_not_lt h2
    have hzone : ship.type = ShipType.tanker → berth.zone = Zone.A := by
      intro ht
      by_contra hz
      exact h3 ⟨ht, hz⟩
    cases ho : ((occupiedSlots.find? (fun p => p.1 == berth.id)).map (fun p => p.2)) with
    | some occupied =>
      cases hb : berth.isOccupied with
      | true =>
        rw [ho, hb] at hc
        rcases mem_emitCandidate _ _ _ _ _ _ _ hc with h | ⟨hid, hst, r, hr, hrf⟩
        · exact Or.inl h
        · refine Or.inr ⟨hid, hlen, hdraft, hzone, r, ?_, hrf⟩
          rw [hst]
          exact hr
      | false =>
        rw [ho, hb] at hc
        rcases mem_emitCandidate _ _ _ _ _ _ _ hc with h | ⟨hid, hst, r, hr, hrf⟩
        · exact Or.inl h
        · refine Or.inr ⟨hid, hlen, hdraft, hzone, r, ?_, hrf⟩
          rw [hst]
          exact hr
    | none =>
      cases hb : berth.isOccupied with
      | true =>
        rw [ho, hb] at hc
        rcases mem_emitCandidate _ _ _ _ _ _ _ hc with h | ⟨hid, hst, r, hr, hrf⟩
        · exact Or.inl h
        · refine Or.inr ⟨hid, hlen, hdraft, hzone, r, ?_, hrf⟩
          rw [hst]
          exact hr
      | false =>
        rw [ho, hb] at hc
        rcases mem_emitCandidate _ _ _ _ _ _ _ hc with h | ⟨hid, hst, r, hr, hrf⟩
        · exact Or.inl h
        · refine Or.inr ⟨hid, hlen, hdraft, hzone, r, ?_, hrf⟩
          rw [hst]
          exact hr

theorem fold_slotStep_sound (ship : Ship) (tideData : List TidePoint)
    (occupiedSlots : List (String × OccupiedSlot)) :
    ∀ (berths : List Berth) (acc : List CandidateBerthSlot) (c : CandidateBerthSlot),
      c ∈ berths.foldl (slotStep ship tideData occupiedSlots) acc →
      c ∈ acc ∨ ∃ b ∈ berths, candidateOK ship tideData b c := by
  intro berths
  induction berths with
  | nil =>
    intro acc c hc
    exact Or.inl hc
  | cons b bs ih =>
    intro acc c hc
    rw [List.foldl_cons] at hc
    rcases ih _ c hc with h | ⟨b2, hb2, hok⟩
    · rcases slotStep_sound _ _ _ _ _ _ h with h2 | hok
      · exact Or.inl h2
      · exact Or.inr ⟨b, List.mem_cons_self b bs, hok⟩
    · exact Or.inr ⟨b2, List.mem_cons_of_mem b hb2, hok⟩

/-- C8: every candidate emitted by `generateCandidateBerthSlots` comes
from a berth of the input list whose length is at least 1.1 × the
vessel's length, with vessel draft at most 15, deep-zone berth whenever
the vessel is a tanker, and a feasible tide-window check at the
candidate's start hour. -/
theorem claim8_thm (ship : Ship) (berths : List Berth) (tideData : List TidePoint)
    (occupiedSlots : List (String × OccupiedSlot)) (c : CandidateBerthSlot)
    (hc : c ∈ generateCandidateBerthSlots ship berths tideData occupiedSlots) :
    ∃ b ∈ berths, candidateOK ship tideData b c := by
  rcases fold_slotStep_sound ship tideData occupiedSlots berths [] c hc with h | h
  · exact absurd h (List.not_mem_nil c)
  · exact h

/-- C8 witness: the candidate generated for the sample container ship
at the sample berth satisfies all four guarantees. -/
theorem claim8_witness :
    ∃ b ∈ [tideBerth], candidateOK plainShip demoTide b demoCandidate :=
  claim8_thm plainShip [tideBerth] demoTide [] demoCandidate
    (by with_unfolding_all decide)

theorem getD_of_lt {α : Type} (l : List α) (d : α) (i : ℕ) (h : i < l.length) :
    l.getD i d = l[i] := by
  rw [List.getD_eq_getElem?_getD, List.getElem?_eq_getElem h]
  rfl

theorem isDominatedAt_eq_false (ps : List ParetoSolution) (i : ℕ) (hi : i < ps.length) :
    (isDominatedAt ps i ps[i] = false ↔ ∀ q ∈ ps, dominatesB q ps[i] = false) := by
  unfold isDominatedAt
  rw [List.any_eq_false]
  constructor
  · intro h q hq
    rcases List.getElem_of_mem hq with ⟨j, hj, rfl⟩
    by_cases hji : j = i
    · subst hji
      exact dominatesB_irrefl _
    · have h2 := h j (List.mem_range.2 hj)
      rw [getD_of_lt _ _ _ hj] at h2
      simpa [hji] using h2
  · intro h j hj
    rw [List.mem_range] at hj
    rw [getD_of_lt _ _ _ hj]
    simp [h (ps[j]) (List.getElem_mem hj)]

/-- C9: `calculateParetoFront` returns exactly the non-dominated
entries: a Pareto record is in the result iff it is one of the entries
built from the input solutions, no entry dominates it (at least as good
on efficiency, cost and carbon, strictly better somewhere), and its
optimality flag is set. -/
theorem claim9_thm (solutions : List ScheduleSolution) (ships : List Ship)
    (x : ParetoSolution) :
    x ∈ calculateParetoFront solutions ships ↔
      ∃ p, p ∈ solutions.map (mkParetoEntry ships) ∧
        (∀ q ∈ solutions.map (mkParetoEntry ships), ¬ dominatesProp q p) ∧
        x = { p with isParetoOptimal := true } := by
  unfold calculateParetoFront
  dsimp only
  rw [List.mem_filter, List.mem_map]
  constructor
  · rintro ⟨⟨i, hir, rfl⟩, hflag⟩
    have hi := List.mem_range.1 hir
    dsimp only at hflag
    rw [Bool.not_eq_true'] at hflag
    rw [getD_of_lt _ _ _ hi] at hflag
    refine ⟨(solutions.map (mkParetoEntry ships))[i], List.getElem_mem hi, ?_, ?_⟩
    · intro q hq hqp
      have hall := (isDominatedAt_eq_false _ i hi).1 hflag q hq
      rw [(dominatesB_iff q _).2 hqp] at hall
      exact Bool.true_eq_false.mp hall
    · rw [getD_of_lt _ _ _ hi, hflag]
      rfl
  · rintro ⟨p, hp, hnodom, rfl⟩
    rcases List.getElem_of_mem hp with ⟨i, hi, hip⟩
    have hfalse : isDominatedAt (solutions.map (mkParetoEntry ships)) i p = false := by
      rw [← hip]
      refine (isDominatedAt_eq_false _ i hi).2 ?_
      intro q hq
      rw [hip]
      have hnq := hnodom q hq
      rcases Bool.eq_false_or_eq_true (dominatesB q p) with hb | hb
      · exact absurd ((dominatesB_iff q p).1 hb) hnq
      · exact hb
    refine ⟨⟨i, List.mem_range.2 hi, ?_⟩, rfl⟩
    dsimp only
    rw [getD_of_lt _ _ _ hi, hip, hfalse]
    rfl

/-- C9 witness: with two candidate solutions where the first dominates
the second on efficiency and cost (equal carbon), the flagged first
entry is in the returned front. -/
theorem claim9_witness :
    { mkParetoEntry ([] : List Ship) solHi with isParetoOptimal := true }
      ∈ calculateParetoFront [solHi, solLo] [] :=
  (claim9_thm [solHi, solLo] []
      { mkParetoEntry ([] : List Ship) solHi with isParetoOptimal := true }).2
    ⟨mkParetoEntry ([] : List Ship) solHi, by with_unfolding_all decide,
     by with_unfolding_all decide, rfl⟩

theorem dominates_eq_of_carbon_eq (q p : ParetoSolution)
    (h : q.carbonEmission = p.carbonEmission) :
    dominatesB q p = dominates2B q p := by
  unfold dominatesB dominates2B
  rw [h]
  simp

/-- C10: `calculateCarbonEmission` ignores the solution, so the carbon
objective is the same for every solution of one `calculateParetoFront`
call, and the returned front coincides with the front computed from
efficiency and cost alone. -/
theorem claim10_thm :
    (∀ (s1 s2 : ScheduleSolution) (ships : List Ship),
        calculateCarbonEmission s1 ships = calculateCarbonEmission s2 ships) ∧
    (∀ (solutions : List ScheduleSolution) (ships : List Ship),
        calculateParetoFront solutions ships = paretoFrontEffCost solutions ships) := by
  constructor
  · intro s1 s2 ships
    rfl
  · intro solutions ships
    unfold calculateParetoFront paretoFrontEffCost
    dsimp only
    have hcarb : ∀ (k : ℕ) (hk : k < (solutions.map (mkParetoEntry ships)).length),
        ((solutions.map (mkParetoEntry ships)).getD k defaultPareto).carbonEmission
          = (ships.map (fun s => (s.vspSavings.getD 0) * 3)).sum := by
      intro k hk
      rw [getD_of_lt _ _ _ hk, List.getElem_map]
      rfl
    congr 1
    apply List.map_congr_left
    intro i hir
    have hi := List.mem_range.1 hir
    have hdom : isDominatedAt (solutions.map (mkParetoEntry ships)) i
          ((solutions.map (mkParetoEntry ships)).getD i defaultPareto)
        = isDominated2At (solutions.map (mkParetoEntry ships)) i
          ((solutions.map (mkParetoEntry ships)).getD i defaultPareto) := by
      unfold isDominatedAt isDominated2At
      rw [Bool.eq_iff_iff]
      rw [List.any_eq_true, List.any_eq_true]
      constructor
      · rintro ⟨j, hjr, hj⟩
        refine ⟨j, hjr, ?_⟩
        rw [← dominates_eq_of_carbon_eq _ _ (by
          rw [hcarb j (List.mem_range.1 hjr), hcarb i hi])]
        exact hj
      · rintro ⟨j, hjr, hj⟩
        refine ⟨j, hjr, ?_⟩
        rw [dominates_eq_of_carbon_eq _ _ (by
          rw [hcarb j (List.mem_range.1 hjr), hcarb i hi])]
        exact hj
    rw [hdom]

/-- C10 witness: the constant-carbon part of the theorem at two
concrete solutions. -/
theorem claim10_witness :
    calculateCarbonEmission solHi [plainShip]
      = calculateCarbonEmission solLo [plainShip] :=
  claim10_thm.1 solHi solLo [plainShip]

end SmartPort
